import Mathlib

/-!
Shallow embedding of the LM-Buddy orchestration core
(`src/core/llm_handler.py`, `src/core/engine.py`, `src/gui.py`) and proofs
about its specified behaviour.

Python dictionaries put on the GUI queue are modelled as an inductive `Msg`
type (the tag constants live in `core/message_types.py`; `None` is the
`sentinel`).  The HTTP layer and the PIL image encoder are modelled by their
observable outcomes (`NetResult`, `PILImage`); everything downstream of those
outcomes is translated statement-by-statement from the source.
-/

namespace LMBuddy

/-- A content part of an API message: `{"type": "text", ...}` or
`{"type": "image_url", ...}` as built throughout `llm_handler.py` and
`engine.py`. -/
inductive Part
  | text (s : String)
  | imageUrl (url : String)
deriving DecidableEq, Repr

/-- Message content: either a plain string or a list of parts, matching the
two `isinstance` cases in the source. -/
inductive Content
  | str (s : String)
  | parts (ps : List Part)
deriving DecidableEq, Repr

/-- Roles that occur in `context_history` tuples (the source only ever
appends `"user"` and `"assistant"` turns). -/
inductive HistRole
  | user
  | assistant
deriving DecidableEq, Repr

/-- Roles of outgoing API messages (`"system"`, `"user"`, `"assistant"`). -/
inductive ApiRole
  | system
  | user
  | assistant
deriving DecidableEq, Repr

/-- A PIL image, modelled by the observable behaviour of its two `save`
paths in `convert_image_to_base64_str`: `jpegEncode q` is `some (byteSize,
base64Payload)` when `save(format="JPEG", quality=q)` succeeds and `none`
when it raises; `pngEncode` likewise for the PNG fallback. -/
structure PILImage where
  jpegEncode : Nat → Option (Nat × String)
  pngEncode : Option (Nat × String)

/-- One entry of `context_history`: the tuple
`(role, content_parts_or_string, pil_image_or_None)`. -/
structure Turn where
  role : HistRole
  content : Content
  image : Option PILImage

/-- One outgoing API message `{"role": ..., "content": ...}`. -/
structure ApiMessage where
  role : ApiRole
  content : Content

/-- The tokenizer of `llm_handler.py`: `none` when unavailable, otherwise an
`encode` returning the token-id list, with `none` standing for an encode
exception. -/
def Tokenizer : Type := Option (String → Option (List Nat))

/-- Python `str.strip()` modelled structurally on the character list (so
that proofs can evaluate it on concrete strings). -/
def pyStrip (s : String) : String :=
  ⟨(((s.data.dropWhile Char.isWhitespace).reverse).dropWhile
      Char.isWhitespace).reverse⟩

/-- Python `str.startswith(pat)` modelled structurally on the character
lists. -/
def pyStartsWith (s pat : String) : Bool :=
  s.data.take pat.data.length == pat.data

/-- `count_text_tokens` (llm_handler.py:98-123): length of the tokenizer
encoding, falling back to `len(text) // 4` when no tokenizer is available or
encoding raises. -/
def count_text_tokens (tok : Tokenizer) (text_to_tokenize : String) : Nat :=
  match tok with
  | some encode =>
    match encode text_to_tokenize with
    | some ids => ids.length
    | none => text_to_tokenize.length / 4
  | none => text_to_tokenize.length / 4

/-- Token contribution of one content part: only `"text"` parts are counted
(llm_handler.py:147-151). -/
def countPartTokens (tok : Tokenizer) : Part → Nat
  | .text s => count_text_tokens tok s
  | .imageUrl _ => 0

/-- `count_tokens_for_api_messages` (llm_handler.py:125-152). -/
def count_tokens_for_api_messages (tok : Tokenizer)
    (api_messages : List ApiMessage) : Nat :=
  api_messages.foldl
    (fun total m =>
      total +
        match m.content with
        | .str s => count_text_tokens tok s
        | .parts ps => ps.foldl (fun a p => a + countPartTokens tok p) 0)
    0

/-- Input to `convert_image_to_base64_str`: either a genuine PIL image or
any other object (the `not isinstance(pil_image, Image.Image)` case). -/
inductive ImageInput
  | notAnImage
  | image (img : PILImage)

/-- Result of the JPEG quality-reduction `while` loop
(llm_handler.py:203-213): final byte size, final buffer payload, final
quality, plus a ghost counter of executed loop-body iterations. -/
structure JpegLoopResult where
  size : Nat
  payload : String
  quality : Nat
  steps : Nat
deriving Repr

/-- The `while img_byte_size > max_size_kb * 1024 and current_quality > 10`
loop of `convert_image_to_base64_str` (llm_handler.py:203-213).  Each body
iteration decrements the quality by 10 and re-encodes; on a re-encode
exception the loop breaks (the buffer was already reset, so the surviving
payload is the empty buffer). `steps` counts executed body iterations. -/
def reduceQualityLoop (img : PILImage) (maxBytes size : Nat)
    (payload : String) (quality : Nat) : JpegLoopResult :=
  if h : size > maxBytes ∧ quality > 10 then
    let q' := quality - 10
    match img.jpegEncode q' with
    | some (sz, pl) =>
      let r := reduceQualityLoop img maxBytes sz pl q'
      { r with steps := r.steps + 1 }
    | none => ⟨size, "", q', 1⟩
  else ⟨size, payload, quality, 0⟩
termination_by quality
decreasing_by omega

/-- `convert_image_to_base64_str` (llm_handler.py:154-221): JPEG first (with
the quality-reduction loop when over budget), PNG fallback, and the fixed
placeholder both for non-image input and for a PNG failure. -/
def convert_image_to_base64_str (pil_image : ImageInput)
    (quality : Nat := 75) (max_size_kb : Nat := 500) : String :=
  match pil_image with
  | .notAnImage => "data:text/plain;base64,ZXJyb3I="
  | .image img =>
    match img.jpegEncode quality with
    | some (sz, pl) =>
      let r := reduceQualityLoop img (max_size_kb * 1024) sz pl quality
      "data:image/jpeg;base64," ++ r.payload
    | none =>
      match img.pngEncode with
      | some (_, pl) => "data:image/png;base64," ++ pl
      | none => "data:text/plain;base64,ZXJyb3I="

/-- A message put on the GUI queue.  Tags correspond to the
`mt.MSG_TYPE_*` constants of `core/message_types.py`; `sentinel` is the
`None` item that terminates a request sequence. -/
inductive Msg
  | info (content : String)
  | error (content : String)
  | chunk (content : String) (completion_tokens_live : Nat)
  | promptTokensUpdate (count : Nat)
  | finalTokenCounts (prompt_tokens completion_tokens total_tokens : Nat)
  | fullResponse (content : String)
  | sentinel
deriving DecidableEq, Repr

/-- One line yielded by `response.iter_lines()` in `stream_llm_response`,
classified by how the loop body (llm_handler.py:378-411) treats it. -/
inductive StreamLine
  /-- A falsy (empty) line: `if line:` skips it. -/
  | blank
  /-- A non-empty line that does not start with the `"data: "` marker. -/
  | nonData (s : String)
  /-- A `"data: "` line whose stripped payload is the literal `[DONE]`. -/
  | done
  /-- A `"data: "` line with decodable JSON: `content` is
  `choices[0].delta.content` (absent or `None` modelled as `none`) and
  `usage` is `usage.total_tokens` when a `usage` key is present. -/
  | payload (content : Option String) (usage : Option Nat)
  /-- A `"data: "` line whose payload raises `json.JSONDecodeError`. -/
  | badJson
deriving DecidableEq, Repr

/-- Observable outcome of the `requests.post` call and any other exception
raised inside the `try` block of `stream_llm_response`. -/
inductive NetResult
  /-- `requests.exceptions.Timeout`. -/
  | timeout
  /-- `requests.exceptions.RequestException` (connection errors and the
  `raise_for_status` HTTP errors), with its string rendering. -/
  | requestError (e : String)
  /-- Any other exception raised inside the `try` block. -/
  | otherError (e : String)
  /-- A successful streaming response delivering these lines. -/
  | ok (lines : List StreamLine)
deriving DecidableEq, Repr

/-- The configuration values read by the modelled code paths
(via `config_manager.get_config_value`). -/
structure Config where
  system_prompt_global : String
  avatar_system_prompt_override : String
  llm_endpoint : Option String
  llm_provider : String
  llm_request_timeout : Nat
  enable_vision_if_available : Bool

/-- Truthiness test `if not llm_endpoint_url:` (llm_handler.py:366):
the endpoint is missing when unset or the empty string. -/
def endpointMissing (cfg : Config) : Bool :=
  match cfg.llm_endpoint with
  | none => true
  | some s => s = ""

/-- `sys_prompt_avatar if sys_prompt_avatar else sys_prompt_global` after
stripping both (llm_handler.py:290-292). -/
def finalSystemPrompt (cfg : Config) : String :=
  let g := pyStrip cfg.system_prompt_global
  let a := pyStrip cfg.avatar_system_prompt_override
  if a ≠ "" then a else g

/-- `is_new_logical_convo` (llm_handler.py:295-297): history empty, or the
last turn's content is a string starting with `"["`. -/
def is_new_logical_convo (context_history : List Turn) : Bool :=
  match context_history.getLast? with
  | none => true
  | some t =>
    match t.content with
    | .str s => pyStartsWith s "["
    | .parts _ => false

/-- The API parts for one history turn (llm_handler.py:304-316): string
content becomes a single text part; a user turn with a stored image and no
`image_url` part gets the image appended as a data URL. -/
def turnToApiParts (t : Turn) : List Part :=
  let base : List Part :=
    match t.content with
    | .parts ps => ps
    | .str s => [.text s]
  match t.role, t.image with
  | .user, some img =>
    if base.any (fun p => match p with | .imageUrl _ => true | _ => false)
    then base
    else base ++ [.imageUrl (convert_image_to_base64_str (.image img))]
  | _, _ => base

/-- Role of a history turn inside the API payload. -/
def apiRoleOf : HistRole → ApiRole
  | .user => .user
  | .assistant => .assistant

/-- History turns flattened into API messages; turns with no resulting
parts are dropped (llm_handler.py:318-319). -/
def historyApiMessages (context_history : List Turn) : List ApiMessage :=
  context_history.filterMap fun t =>
    let ps := turnToApiParts t
    if ps.isEmpty then none else some ⟨apiRoleOf t.role, .parts ps⟩

/-- The system-prompt messages prepended when a prompt is configured and
the conversation is logically new (llm_handler.py:299-300). -/
def systemApiMessages (cfg : Config) (context_history : List Turn) :
    List ApiMessage :=
  if finalSystemPrompt cfg ≠ "" ∧ is_new_logical_convo context_history = true
  then [⟨.system, .str (finalSystemPrompt cfg)⟩]
  else []

/-- The full `api_payload_messages` list assembled by `stream_llm_response`
(llm_handler.py:287-323) for a non-empty current user message. -/
def api_payload_messages (cfg : Config) (context_history : List Turn)
    (current_user_message_parts : List Part) : List ApiMessage :=
  systemApiMessages cfg context_history
    ++ historyApiMessages context_history
    ++ [⟨.user, .parts current_user_message_parts⟩]

/-- State threaded through the `for line in response.iter_lines()` loop:
the accumulated response text, the live completion-token counter, the
largest server-reported total, the messages emitted so far, and the number
of `stop_event.is_set()` calls made so far. -/
structure LoopState where
  full : String
  completion : Nat
  serverTotal : Nat
  emitted : List Msg
  checks : Nat
deriving Repr

/-- The line-reading loop of `stream_llm_response`
(llm_handler.py:378-411).  `stop k` is the value returned by the k-th
`stop_event.is_set()` call (one per loop iteration, counted by
`LoopState.checks`); the check at llm_handler.py:413 is made by the caller
on the returned state. -/
def streamLoop (tok : Tokenizer) (stop : Nat → Bool) :
    List StreamLine → LoopState → LoopState
  | [], st => st
  | line :: rest, st =>
    if stop st.checks then { st with checks := st.checks + 1 }
    else
      let st := { st with checks := st.checks + 1 }
      match line with
      | .blank => streamLoop tok stop rest st
      | .nonData _ => streamLoop tok stop rest st
      | .done => st
      | .badJson => streamLoop tok stop rest st
      | .payload content usage =>
        let st :=
          match content with
          | some c =>
            if c ≠ "" then
              let ct := count_text_tokens tok c
              { st with
                  full := st.full ++ c
                  completion := st.completion + ct
                  emitted := st.emitted ++ [.chunk c (st.completion + ct)] }
            else st
          | none => st
        let st :=
          match usage with
          | some t => if t > st.serverTotal then { st with serverTotal := t } else st
          | none => st
        streamLoop tok stop rest st

/-- The assistant info-turn text used by the `set_context_for_question`
branch (llm_handler.py:270). -/
def contextSetInfoMsg : String :=
  "[Context set. Please type your question to the LLM.]"

/-- `stream_llm_response` (llm_handler.py:225-460), as a pure function from
the request inputs, the configuration, the tokenizer, the network outcome
and the stop-signal trace to the pair (messages put on `gui_queue` in
order, final `context_history`).  The two `gui_queue.put(None)` of the
cancellation path (llm_handler.py:415 plus the `finally` at 459-460) are
both modelled. -/
def stream_llm_response (cfg : Config) (tok : Tokenizer) (net : NetResult)
    (stop : Nat → Bool) (context_history : List Turn)
    (current_user_message_parts : List Part)
    (is_direct_question : Bool) (specific_action : Option String)
    (pil_image_obj : Option PILImage) (target_language : Option String) :
    List Msg × List Turn :=
  if specific_action = some "set_context_for_question" then
    let history :=
      context_history
        ++ [⟨.user, .parts current_user_message_parts, pil_image_obj⟩,
            ⟨.assistant, .str contextSetInfoMsg, none⟩]
    let prompt_tokens :=
      count_tokens_for_api_messages tok
        [⟨.user, .parts current_user_message_parts⟩]
    ([.info contextSetInfoMsg,
      .promptTokensUpdate prompt_tokens,
      .finalTokenCounts prompt_tokens 0 prompt_tokens,
      .sentinel], history)
  else
    if current_user_message_parts.isEmpty then
      ([.error "Internal error: No user message content to send.",
        .sentinel], context_history)
    else
      let payload :=
        api_payload_messages cfg context_history current_user_message_parts
      let prompt_tokens := count_tokens_for_api_messages tok payload
      let pre : List Msg := [.promptTokensUpdate prompt_tokens]
      if endpointMissing cfg then
        let emsg :=
          "LLM endpoint URL is not configured for provider '"
            ++ cfg.llm_provider ++ "'."
        (pre ++ [.error ("Unexpected LLM Error: " ++ emsg.take 150),
                 .finalTokenCounts prompt_tokens 0 prompt_tokens,
                 .sentinel], context_history)
      else
        match net with
        | .timeout =>
          (pre ++ [.error ("LLM request timed out ("
                      ++ toString cfg.llm_request_timeout ++ "s)."),
                   .finalTokenCounts prompt_tokens 0 prompt_tokens,
                   .sentinel], context_history)
        | .requestError e =>
          (pre ++ [.error ("LLM Connection Error: " ++ e.take 150),
                   .finalTokenCounts prompt_tokens 0 prompt_tokens,
                   .sentinel], context_history)
        | .otherError e =>
          (pre ++ [.error ("Unexpected LLM Error: " ++ e.take 150),
                   .finalTokenCounts prompt_tokens 0 prompt_tokens,
                   .sentinel], context_history)
        | .ok lines =>
          let st := streamLoop tok stop lines ⟨"", 0, 0, [], 0⟩
          if stop st.checks then
            (pre ++ st.emitted
               ++ [.info "LLM stream was cancelled by application.",
                   .sentinel, .sentinel], context_history)
          else
            let history :=
              context_history
                ++ [⟨.user, .parts current_user_message_parts, pil_image_obj⟩,
                    ⟨.assistant, .str st.full, none⟩]
            let calculated_total := prompt_tokens + st.completion
            let final_total :=
              if st.serverTotal ≥ calculated_total then st.serverTotal
              else calculated_total
            (pre ++ st.emitted
               ++ [.finalTokenCounts prompt_tokens st.completion final_total,
                   .fullResponse st.full,
                   .sentinel], history)

/-- Truthiness of an optional string (`if ocr_text:` etc.): present and
non-empty. -/
def strOptTruthy : Option String → Bool
  | none => false
  | some s => !(s == "")

/-- Whether `pat` occurs as a substring of `s` (the Python `in` operator),
via `splitOn`: for a non-empty pattern there are at least two fragments
exactly when the pattern occurs. -/
def hasSubstr (s pat : String) : Bool :=
  (s.splitOn pat).length > 1

/-- The argument tuple the engine hands to
`llm_handler.stream_llm_response` when it spawns a worker thread. -/
structure StreamCall where
  current_user_message_parts : List Part
  is_direct_question : Bool
  specific_action : Option String
  pil_image_obj : Option PILImage
  target_language : Option String

/-- Outcome of an engine entry point: either an early return (with the
messages posted, no worker thread) or a spawned worker with the arguments
passed to `stream_llm_response`. -/
inductive EngineResult
  | rejected (emitted : List Msg)
  | spawned (call : StreamCall)

/-- Whether the engine call spawned a worker thread (and hence invokes
`stream_llm_response`). -/
def EngineResult.isSpawned : EngineResult → Bool
  | .rejected _ => false
  | .spawned _ => true

/-- `LMBuddyCoreEngine.process_direct_question` (engine.py:137-166):
rejects blank input with an `Error` message and no thread, otherwise
spawns a worker with a single text part. -/
def process_direct_question (question_text : String) : EngineResult :=
  if question_text == "" || pyStrip question_text == "" then
    .rejected [.error "Cannot process an empty question."]
  else
    .spawned ⟨[.text question_text], true, none, none, none⟩

/-- `LMBuddyCoreEngine.process_ocr_action` (engine.py:168-230): builds the
prompt text for the given action key and unconditionally spawns a worker
invoking `stream_llm_response`.  `enable_vision_if_available` is the config
flag read at engine.py:186. -/
def process_ocr_action (enable_vision_if_available : Bool)
    (action_key : String) (ocr_text : Option String)
    (image_pil : Option PILImage) (target_language : Option String) :
    EngineResult :=
  let visionParts : List Part :=
    match image_pil, enable_vision_if_available with
    | some img, true =>
      [.imageUrl (convert_image_to_base64_str (.image img))]
    | _, _ => []
  let p0 : String :=
    if action_key == "summarize" then
      "Fasse den folgenden Inhalt (Text/Bild) prägnant zusammen."
    else if action_key == "help" then
      "Ich benötige Hilfe zum folgenden Inhalt (Text/Bild). Gib eine verständliche Hilfestellung."
    else if action_key == "improve_text" && strOptTruthy ocr_text then
      "Bitte verbessere den folgenden Text:"
    else if action_key == "analyze_image" then
      "Analysiere das folgende Bild detailliert."
    else if action_key == "bullet_points" then
      "Extrahiere die wichtigsten Informationen aus dem folgenden Inhalt (Text/Bild) als Stichpunkte."
    else if action_key == "translate" && strOptTruthy target_language then
      "Übersetze den folgenden Text (oder beschreibe das Bild und übersetze die Beschreibung) in die Sprache: "
        ++ target_language.getD "" ++ "."
    else if action_key == "set_context_for_question" then
      let base := "Der folgende Inhalt (Text/Bild) dient als Kontext für meine nächste Frage:"
      if strOptTruthy ocr_text then
        base ++ "\n\nOCR-Text:\n---\n" ++ ocr_text.getD "" ++ "\n---"
      else base
    else
      "Analysiere den folgenden Inhalt (Text/Bild) und gib eine kurze Hilfestellung/Zusammenfassung."
  let p1 : String :=
    if strOptTruthy ocr_text && !(action_key == "set_context_for_question") then
      p0 ++ "\n\nExtrahierter Text:\n\"\"\"" ++ ocr_text.getD "" ++ "\"\"\""
    else p0
  let p2 : String :=
    if image_pil.isNone && hasSubstr p1 "(Text/Bild)" then
      p1.replace "(Text/Bild)" "(Text)"
    else if image_pil.isNone && hasSubstr p1 "Bild" && !(hasSubstr p1 "Text") then
      let base := "Aktion nicht möglich, da kein Bild vorhanden."
      if strOptTruthy ocr_text then
        base ++ " Dennoch hier der extrahierte Text:\n\"\"\"" ++ ocr_text.getD "" ++ "\"\"\""
      else base
    else p1
  .spawned ⟨visionParts ++ [.text p2], false, some action_key, image_pil,
            target_language⟩

/-- Outcome of the GUI-side action handler: either cancelled before any
engine call, or a call into `LMBuddyCoreEngine.process_ocr_action`. -/
inductive GuiActionResult
  | cancelled
  | engineCall (key : String) (ocr : Option String) (img : Option PILImage)
      (lang : Option String)

/-- `handle_ocr_action` (gui.py:463-470): for the `"translate"` key it asks
the user for a target language (`dialogResult` is the dialog's return
value) and cancels when the answer is missing or blank; the `"cancel"` key
also returns without an engine call; every other key calls
`process_ocr_action`. -/
def handle_ocr_action (key : String) (ocr : Option String)
    (img : Option PILImage) (dialogResult : Option String) :
    GuiActionResult :=
  if key == "translate" then
    match dialogResult with
    | none => .cancelled
    | some l =>
      if l == "" || pyStrip l == "" then .cancelled
      else if key == "cancel" then .cancelled
      else .engineCall key ocr img (some (pyStrip l))
  else if key == "cancel" then .cancelled
  else .engineCall key ocr img none

/-- Number of sentinel (`None`) items among the queued messages. -/
def sentinelCount (msgs : List Msg) : Nat :=
  msgs.countP (fun m => decide (m = Msg.sentinel))

/-- Inputs of one streaming request, used to iterate requests for the
history-growth invariant. -/
structure LLMRequest where
  cfg : Config
  tok : Tokenizer
  lines : List StreamLine
  parts : List Part
  image : Option PILImage

/-- Run a sequence of ordinary (non-`set_context`) streaming requests with
the stop signal never set, threading the shared history exactly as the
worker threads do one after the other. -/
def runCompletedRequests (reqs : List LLMRequest) (history : List Turn) :
    List Turn :=
  reqs.foldl
    (fun hist r =>
      (stream_llm_response r.cfg r.tok (.ok r.lines) (fun _ => false) hist
        r.parts false none r.image none).2)
    history

/-- A concrete configuration with a local endpoint, used to evaluate the
model on explicit inputs. -/
def cfgLocal : Config :=
  ⟨"", "", some "http://localhost:1234/v1/chat/completions", "custom", 180, false⟩

/-- A concrete configuration with no endpoint configured. -/
def cfgNoEndpoint : Config := ⟨"", "", none, "custom", 180, false⟩

/-- A concrete image stub whose JPEG encoding is always 1000 bytes for
every quality and whose PNG encoding also succeeds. -/
def imgStub : PILImage := ⟨fun _ => some (1000, "payload"), some (3, "png")⟩

/-! ## Theorems -/

/-- C9: with `specific_action = "set_context_for_question"` the request is
handled entirely in-process: for every network outcome and stop trace the
function appends exactly the user turn and the bracketed assistant
info-turn to the history, emits `Info`, the prompt-token count of that
context alone, `FinalTokenCounts` with zero completion tokens, and ends
with the single `Sentinel` — no network-originated message. -/
theorem set_context_for_question_in_process
    (cfg : Config) (tok : Tokenizer) (net : NetResult) (stop : Nat → Bool)
    (history : List Turn) (parts : List Part) (image : Option PILImage) :
    stream_llm_response cfg tok net stop history parts false
        (some "set_context_for_question") image none =
      ([.info contextSetInfoMsg,
        .promptTokensUpdate
          (count_tokens_for_api_messages tok [⟨.user, .parts parts⟩]),
        .finalTokenCounts
          (count_tokens_for_api_messages tok [⟨.user, .parts parts⟩]) 0
          (count_tokens_for_api_messages tok [⟨.user, .parts parts⟩]),
        .sentinel],
       history ++ [⟨.user, .parts parts, image⟩,
                   ⟨.assistant, .str contextSetInfoMsg, none⟩]) := by
  simp [stream_llm_response]

/-- C10: `convert_image_to_base64_str` is total: non-image input yields the
fixed placeholder `"data:text/plain;base64,ZXJyb3I="` rather than raising,
and every value it returns has the shape
`"data:" ++ mime ++ ";base64," ++ payload`. -/
theorem convert_image_total_data_url :
    (∀ q m, convert_image_to_base64_str .notAnImage q m
      = "data:text/plain;base64,ZXJyb3I=") ∧
    (∀ input q m, ∃ mime payload,
      convert_image_to_base64_str input q m
        = "data:" ++ mime ++ ";base64," ++ payload) := by
  constructor
  · intro q m; rfl
  · intro input q m
    cases input with
    | notAnImage => exact ⟨"text/plain", "ZXJyb3I=", rfl⟩
    | image img =>
      cases hj : img.jpegEncode q with
      | some pr =>
        obtain ⟨sz, pl⟩ := pr
        refine ⟨"image/jpeg",
          (reduceQualityLoop img (m * 1024) sz pl q).payload, ?_⟩
        simp only [convert_image_to_base64_str, hj]
        rfl
      | none =>
        cases hp : img.pngEncode with
        | some pr =>
          obtain ⟨sz, pl⟩ := pr
          refine ⟨"image/png", pl, ?_⟩
          simp only [convert_image_to_base64_str, hj, hp]
          rfl
        | none =>
          refine ⟨"text/plain", "ZXJyb3I=", ?_⟩
          simp only [convert_image_to_base64_str, hj, hp]
          rfl

/-- C4 counterexample: the no-tokenizer fallback is `len(text) // 4`
(floor), not `ceil(len(text)/4)`: on the single space the code returns `0`
while the ceiling is `1`; and the four-space whitespace-only string gets
count `1`, not `0`. -/
theorem count_text_tokens_not_ceil :
    count_text_tokens none " " = 0
      ∧ count_text_tokens none " " ≠ (" ".length + 3) / 4
      ∧ count_text_tokens none "    " = 1 := by
  refine ⟨rfl, ?_, rfl⟩
  decide

/-- C4 amended: with no tokenizer available the token count of a text is
`len(text) / 4` rounded down; hence `count_text_tokens` of the empty
string is `0`, every string shorter than 4 characters (in particular short
whitespace-only strings) counts `0`, and any string of length at least 4
(including whitespace-only ones) counts at least `1`. -/
theorem count_text_tokens_fallback_floor :
    (∀ s : String, count_text_tokens none s = s.length / 4)
      ∧ count_text_tokens none "" = 0
      ∧ (∀ s : String, s.length < 4 → count_text_tokens none s = 0)
      ∧ (∀ s : String, 4 ≤ s.length → 0 < count_text_tokens none s) := by
  refine ⟨fun s => rfl, rfl, fun s hs => ?_, fun s hs => ?_⟩
  · show s.length / 4 = 0
    omega
  · show 0 < s.length / 4
    exact Nat.div_pos hs (by norm_num)

/-- C4 amended, witness: the fallback count evaluated on concrete strings
through `count_text_tokens_fallback_floor`. -/
theorem count_text_tokens_fallback_floor_witness :
    count_text_tokens none "ab" = 0 ∧ 0 < count_text_tokens none "     " :=
  ⟨count_text_tokens_fallback_floor.2.2.1 "ab" (by decide),
   count_text_tokens_fallback_floor.2.2.2 "     " (by decide)⟩

/-- The quality-reduction loop runs at most `(q - 1) / 10` body iterations
from starting quality `q`, because the quality strictly decreases by 10
per iteration and the guard requires it to exceed 10. -/
theorem reduceQualityLoop_steps_le (img : PILImage) (maxBytes : Nat) :
    ∀ q size pl, (reduceQualityLoop img maxBytes size pl q).steps ≤ (q - 1) / 10 := by
  intro q
  induction q using Nat.strong_induction_on with
  | _ q ih =>
    intro size pl
    rw [reduceQualityLoop]
    split
    · next hgt =>
      have hq : 10 < q := hgt.2
      have hdiv : 1 ≤ (q - 1) / 10 :=
        (Nat.le_div_iff_mul_le (by norm_num)).mpr (by omega)
      cases hj : img.jpegEncode (q - 10) with
      | some pr =>
        obtain ⟨sz, pl'⟩ := pr
        simp only [hj]
        have hrec := ih (q - 10) (by omega) sz pl'
        have heq : (q - 10 - 1) / 10 + 1 = (q - 1) / 10 := by
          rw [← Nat.add_div_right _ (by norm_num : 0 < 10)]
          congr 1
          omega
        show (reduceQualityLoop img maxBytes sz pl' (q - 10)).steps + 1
          ≤ (q - 1) / 10
        omega
      | none =>
        simp only [hj]
        exact hdiv
    · simp

/-- C6: the quality-reduction loop of `convert_image_to_base64_str`
terminates on every input: (1) once the quality is at the floor (≤ 10) the
loop returns its current result immediately, even when the encoded size
still exceeds the budget; (2) from the default starting quality 75 it runs
at most 7 iterations, whatever the image's encoded sizes are; (3) each
executed iteration decreases the quality by exactly 10 and re-encodes. -/
theorem quality_loop_terminates :
    (∀ img maxBytes size pl q, q ≤ 10 →
      reduceQualityLoop img maxBytes size pl q = ⟨size, pl, q, 0⟩)
    ∧ (∀ img maxBytes size pl,
        (reduceQualityLoop img maxBytes size pl 75).steps ≤ 7)
    ∧ (∀ img maxBytes size pl q sz pl',
        size > maxBytes → q > 10 → img.jpegEncode (q - 10) = some (sz, pl') →
        reduceQualityLoop img maxBytes size pl q =
          (let r := reduceQualityLoop img maxBytes sz pl' (q - 10)
           { r with steps := r.steps + 1 })) := by
  refine ⟨fun img maxBytes size pl q hq => ?_,
          fun img maxBytes size pl => ?_,
          fun img maxBytes size pl q sz pl' hsize hq hj => ?_⟩
  · rw [reduceQualityLoop]
    have : ¬(size > maxBytes ∧ q > 10) := by omega
    simp [this]
  · exact reduceQualityLoop_steps_le img maxBytes 75 size pl
  · rw [reduceQualityLoop]
    have : size > maxBytes ∧ q > 10 := ⟨hsize, hq⟩
    simp [this, hj]

/-- C6 witness: the guarantees of `quality_loop_terminates` evaluated on
the concrete stub image whose encodings are always 1000 bytes, against a
zero-byte budget (always over budget). -/
theorem quality_loop_terminates_witness :
    reduceQualityLoop imgStub 0 1000 "p" 5 = ⟨1000, "p", 5, 0⟩
    ∧ (reduceQualityLoop imgStub 0 1000 "p" 75).steps ≤ 7
    ∧ reduceQualityLoop imgStub 0 1000 "p" 20 =
        (let r := reduceQualityLoop imgStub 0 1000 "payload" 10
         { r with steps := r.steps + 1 }) :=
  ⟨quality_loop_terminates.1 imgStub 0 1000 "p" 5 (by norm_num),
   quality_loop_terminates.2.1 imgStub 0 1000 "p",
   quality_loop_terminates.2.2 imgStub 0 1000 "p" 20 1000 "payload"
     (by norm_num) (by norm_num) rfl⟩

/-- C3 counterexample: `process_ocr_action` with action key `"translate"`
and an empty target language is NOT rejected by the engine — it spawns a
worker (and hence `stream_llm_response` is invoked), contrary to the
claim. -/
theorem process_ocr_action_translate_empty_spawns :
    (process_ocr_action false "translate" (some "text") none
        (some "")).isSpawned = true := by
  rfl

/-- C3 amended: the engine's `process_ocr_action` never rejects a
`"translate"` action with an empty target language — the translate
template is skipped, the default fallback prompt is used, and a worker
invoking `stream_llm_response` is always spawned.  The empty-target
rejection lives one layer up, in the GUI's `handle_ocr_action`, which
cancels (no engine call at all) when the language dialog returns nothing
or a blank string. -/
theorem translate_empty_target_not_rejected :
    (∀ (vision : Bool) (ocr : Option String) (img : Option PILImage),
      (process_ocr_action vision "translate" ocr img (some "")).isSpawned
        = true)
    ∧ (∀ (ocr : Option String) (img : Option PILImage),
        handle_ocr_action "translate" ocr img none = .cancelled)
    ∧ (∀ (ocr : Option String) (img : Option PILImage) (l : String),
        pyStrip l = "" →
        handle_ocr_action "translate" ocr img (some l) = .cancelled) := by
  refine ⟨fun vision ocr img => rfl, fun ocr img => rfl,
          fun ocr img l h => ?_⟩
  simp [handle_ocr_action, h]

/-- C3 amended, witness: the GUI cancellation evaluated on a blank dialog
answer through `translate_empty_target_not_rejected`. -/
theorem translate_empty_target_not_rejected_witness :
    pyStrip " " = ""
    ∧ handle_ocr_action "translate" (some "text") none (some " ")
        = .cancelled :=
  ⟨rfl, translate_empty_target_not_rejected.2.2 (some "text") none " " rfl⟩

/-- No API message flattened from the history carries the system role:
history turns are user or assistant turns. -/
theorem historyApiMessages_no_system (history : List Turn) :
    ∀ m ∈ historyApiMessages history, m.role ≠ .system := by
  intro m hm
  simp only [historyApiMessages, List.mem_filterMap] at hm
  obtain ⟨t, _, hmm⟩ := hm
  split at hmm
  · exact absurd hmm (by simp)
  · obtain rfl := Option.some.inj hmm
    cases t.role <;> simp [apiRoleOf]

/-- C8: `stream_llm_response` prepends a system turn to the outgoing
message list if and only if a system prompt is configured (the
avatar-specific override taking precedence over the global one) and the
conversation is logically new; for a history whose last turn is an
assistant turn (the only shape the code ever produces), "logically new"
means the history is empty or that last assistant turn's text starts with
the bracket marker. -/
theorem system_prompt_prepended_iff
    (cfg : Config) (history : List Turn) (parts : List Part)
    (hlast : ∀ t, history.getLast? = some t → t.role = .assistant) :
    ((∃ m ∈ api_payload_messages cfg history parts, m.role = .system) ↔
        (finalSystemPrompt cfg ≠ "" ∧ is_new_logical_convo history = true))
    ∧ ((finalSystemPrompt cfg ≠ "" ∧ is_new_logical_convo history = true) →
        (api_payload_messages cfg history parts).head? =
          some ⟨.system, .str (finalSystemPrompt cfg)⟩)
    ∧ (pyStrip cfg.avatar_system_prompt_override ≠ "" →
        finalSystemPrompt cfg = pyStrip cfg.avatar_system_prompt_override)
    ∧ (is_new_logical_convo history = true ↔
        (history = [] ∨ ∃ t s, history.getLast? = some t
          ∧ t.content = .str s ∧ pyStartsWith s "[" = true)) := by
  refine ⟨⟨fun hex => ?_, fun hcond => ?_⟩, fun hcond => ?_, fun ha => ?_, ?_⟩
  · by_contra hcond
    obtain ⟨m, hm, hrole⟩ := hex
    simp only [api_payload_messages, systemApiMessages, hcond, if_false,
      List.nil_append, List.mem_append] at hm
    rcases hm with hm | hm
    · exact historyApiMessages_no_system history m hm hrole
    · simp at hm
      subst hm
      exact absurd hrole (by simp)
  · refine ⟨⟨.system, .str (finalSystemPrompt cfg)⟩, ?_, rfl⟩
    simp [api_payload_messages, systemApiMessages, hcond]
  · simp [api_payload_messages, systemApiMessages, hcond]
  · simp [finalSystemPrompt, ha]
  · unfold is_new_logical_convo
    cases hl : history.getLast? with
    | none =>
      simp only [List.getLast?_eq_none_iff] at hl
      simp [hl]
    | some t =>
      have hne : history ≠ [] := by
        intro h
        subst h
        simp at hl
      cases hc : t.content with
      | str s =>
        simp only [hc]
        constructor
        · intro hs
          exact Or.inr ⟨t, s, rfl, hc, hs⟩
        · rintro (h | ⟨t', s', hl', hc', hs'⟩)
          · exact absurd h hne
          · obtain rfl := Option.some.inj hl'
            rw [hc] at hc'
            obtain rfl := (Content.str.injEq _ _).mp hc'
            exact hs'
      | parts ps =>
        simp only [hc]
        constructor
        · intro h
          exact absurd h (by simp)
        · rintro (h | ⟨t', s', hl', hc', _⟩)
          · exact absurd h hne
          · obtain rfl := Option.some.inj hl'
            rw [hc] at hc'
            exact absurd hc' (by simp)

/-- C8 witness: with an avatar override configured and a history ending in
the bracketed context-marker assistant turn, the payload's head is the
system turn, via `system_prompt_prepended_iff`. -/
theorem system_prompt_prepended_iff_witness :
    (api_payload_messages ⟨"", "sys", some "e", "custom", 180, false⟩
        [⟨.assistant, .str contextSetInfoMsg, none⟩] [.text "q"]).head? =
      some ⟨.system,
        .str (finalSystemPrompt ⟨"", "sys", some "e", "custom", 180, false⟩)⟩ :=
  (system_prompt_prepended_iff ⟨"", "sys", some "e", "custom", 180, false⟩
      [⟨.assistant, .str contextSetInfoMsg, none⟩] [.text "q"]
      (fun t ht => by
        obtain rfl := Option.some.inj ht
        rfl)).2.1
    ⟨by decide, rfl⟩

/-- C7: every error branch of `stream_llm_response` — missing endpoint
configuration, request timeout, connection/HTTP failure, and any other
unexpected exception — emits exactly one `Error` and one
`FinalTokenCounts` with zero completion tokens followed by the `Sentinel`
(after the initial prompt-token update), and appends nothing to the
history. -/
theorem stream_error_branches
    (cfg : Config) (tok : Tokenizer) (net : NetResult) (stop : Nat → Bool)
    (history : List Turn) (parts : List Part) (image : Option PILImage)
    (hparts : parts ≠ [])
    (herr : endpointMissing cfg = true ∨ net = .timeout
      ∨ (∃ e, net = .requestError e) ∨ (∃ e, net = .otherError e)) :
    ∃ emsg pt,
      stream_llm_response cfg tok net stop history parts false none image none
        = ([.promptTokensUpdate pt, .error emsg,
            .finalTokenCounts pt 0 pt, .sentinel], history) := by
  obtain ⟨p, ps, rfl⟩ : ∃ p ps, parts = p :: ps := by
    cases parts with
    | nil => exact absurd rfl hparts
    | cons p ps => exact ⟨p, ps, rfl⟩
  by_cases hend : endpointMissing cfg = true
  · exact ⟨"Unexpected LLM Error: "
        ++ ("LLM endpoint URL is not configured for provider '"
            ++ cfg.llm_provider ++ "'.").take 150,
      count_tokens_for_api_messages tok
        (api_payload_messages cfg history (p :: ps)),
      by simp [stream_llm_response, hend]⟩
  · rw [Bool.not_eq_true] at hend
    rcases herr with h | h | ⟨e, h⟩ | ⟨e, h⟩
    · exact absurd h (by simp [hend])
    · subst h
      exact ⟨"LLM request timed out ("
          ++ toString cfg.llm_request_timeout ++ "s).",
        count_tokens_for_api_messages tok
          (api_payload_messages cfg history (p :: ps)),
        by simp [stream_llm_response, hend]⟩
    · subst h
      exact ⟨"LLM Connection Error: " ++ e.take 150,
        count_tokens_for_api_messages tok
          (api_payload_messages cfg history (p :: ps)),
        by simp [stream_llm_response, hend]⟩
    · subst h
      exact ⟨"Unexpected LLM Error: " ++ e.take 150,
        count_tokens_for_api_messages tok
          (api_payload_messages cfg history (p :: ps)),
        by simp [stream_llm_response, hend]⟩

/-- C7 witness: the missing-endpoint branch evaluated on a concrete request
through `stream_error_branches`. -/
theorem stream_error_branches_witness :
    ∃ emsg pt,
      stream_llm_response cfgNoEndpoint none (.ok []) (fun _ => false) []
          [.text "hi"] false none none none
        = ([.promptTokensUpdate pt, .error emsg,
            .finalTokenCounts pt 0 pt, .sentinel], []) :=
  stream_error_branches cfgNoEndpoint none (.ok []) (fun _ => false) []
    [.text "hi"] none (by decide) (Or.inl rfl)

/-- A fully completed, never-cancelled streaming request (successful HTTP
stream, stop signal never set) appends exactly the user/assistant pair to
the history. -/
theorem stream_ok_no_stop_appends_pair
    (cfg : Config) (tok : Tokenizer) (lines : List StreamLine)
    (history : List Turn) (parts : List Part) (image : Option PILImage)
    (hparts : parts ≠ []) (hend : endpointMissing cfg = false) :
    (stream_llm_response cfg tok (.ok lines) (fun _ => false) history parts
        false none image none).2
      = history
          ++ [⟨.user, .parts parts, image⟩,
              ⟨.assistant,
               .str (streamLoop tok (fun _ => false) lines
                  ⟨"", 0, 0, [], 0⟩).full, none⟩] := by
  obtain ⟨p, ps, rfl⟩ : ∃ p ps, parts = p :: ps := by
    cases parts with
    | nil => exact absurd rfl hparts
    | cons p ps => exact ⟨p, ps, rfl⟩
  simp [stream_llm_response, hend]

/-- C5: a fully completed, non-cancelled request appends exactly two turns
to the history — the user turn followed by the assistant turn, as one
pair; a request with the stop signal set appends zero; and after `N`
completed, non-cancelled requests starting from an empty history (no
intervening clear) the history length is exactly `2 * N`. -/
theorem history_pair_invariant :
    (∀ cfg tok lines history parts image, parts ≠ [] →
      endpointMissing cfg = false →
      ∃ fullText,
        (stream_llm_response cfg tok (.ok lines) (fun _ => false) history
            parts false none image none).2
          = history ++ [⟨.user, .parts parts, image⟩,
                        ⟨.assistant, .str fullText, none⟩])
    ∧ (∀ cfg tok net history parts image,
        (stream_llm_response cfg tok net (fun _ => true) history parts
            false none image none).2 = history)
    ∧ (∀ reqs history,
        (∀ r ∈ reqs, r.parts ≠ [] ∧ endpointMissing r.cfg = false) →
        (runCompletedRequests reqs history).length
          = history.length + 2 * reqs.length) := by
  refine ⟨fun cfg tok lines history parts image hparts hend =>
    ⟨_, stream_ok_no_stop_appends_pair cfg tok lines history parts image
        hparts hend⟩, fun cfg tok net history parts image => ?_, ?_⟩
  · by_cases hact : ([] : List Part).isEmpty = true
    · cases hp : parts.isEmpty
      · cases net with
        | timeout =>
          by_cases hend : endpointMissing cfg = true <;>
            simp [stream_llm_response, hp, hend]
        | requestError e =>
          by_cases hend : endpointMissing cfg = true <;>
            simp [stream_llm_response, hp, hend]
        | otherError e =>
          by_cases hend : endpointMissing cfg = true <;>
            simp [stream_llm_response, hp, hend]
        | ok lines =>
          by_cases hend : endpointMissing cfg = true <;>
            simp [stream_llm_response, hp, hend]
      · simp [stream_llm_response, hp]
    · simp at hact
  · intro reqs
    induction reqs with
    | nil => intro history _; simp [runCompletedRequests]
    | cons r rs ih =>
      intro history hall
      have hr := hall r (by simp)
      have hrest : ∀ x ∈ rs, x.parts ≠ [] ∧ endpointMissing x.cfg = false :=
        fun x hx => hall x (by simp [hx])
      have hstep := stream_ok_no_stop_appends_pair r.cfg r.tok r.lines
        history r.parts r.image hr.1 hr.2
      have : runCompletedRequests (r :: rs) history
          = runCompletedRequests rs
              ((stream_llm_response r.cfg r.tok (.ok r.lines)
                  (fun _ => false) history r.parts false none r.image
                  none).2) := by
        simp [runCompletedRequests, List.foldl_cons]
      rw [this, hstep, ih _ hrest]
      simp
      omega

/-- C5 witness: two completed concrete requests starting from the empty
history leave exactly four turns, via `history_pair_invariant`. -/
theorem history_pair_invariant_witness :
    (runCompletedRequests
        [⟨cfgLocal, none, [.payload (some "Paris") none, .done],
          [.text "capital?"], none⟩,
         ⟨cfgLocal, none, [.done], [.text "again?"], none⟩] []).length
      = 0 + 2 * 2 :=
  history_pair_invariant.2.2
    [⟨cfgLocal, none, [.payload (some "Paris") none, .done],
      [.text "capital?"], none⟩,
     ⟨cfgLocal, none, [.done], [.text "again?"], none⟩] []
    (by
      intro r hr
      simp only [List.mem_cons, List.mem_singleton] at hr
      rcases hr with rfl | rfl | h
      · exact ⟨by decide, rfl⟩
      · exact ⟨by decide, rfl⟩
      · cases h)

/-- C1 (bug demonstration): the claim says exactly one `Sentinel` is put on
the channel per invocation on every code path, but on the cancellation path
the code at llm_handler.py:415 puts `None` and returns, after which the
`finally` block at llm_handler.py:459-460 puts `None` again: with the stop
signal set during a successful stream, the model emits two sentinels. -/
theorem stream_cancellation_two_sentinels :
    sentinelCount
      (stream_llm_response cfgLocal none
          (.ok [.payload (some "Hello") none, .done]) (fun _ => true)
          [] [.text "hi"] false none none none).1 = 2 := by
  rfl

/-- C2 (bug demonstration): when the stop signal becomes set during the
line-reading loop, no `Chunk` is emitted after the signal is observed and
no turn is appended to the history, but the channel receives the `Info`
followed by TWO sentinels (llm_handler.py:415 and the `finally` at 460),
not exactly one: on a stream that delivers one chunk before the signal is
observed, the full output is `PromptTokensUpdate`, the pre-signal `Chunk`,
`Info`, `Sentinel`, `Sentinel`, with the history unchanged. -/
theorem stream_stop_during_loop_output :
    stream_llm_response cfgLocal none
        (.ok [.payload (some "Hello world, this is a chunk") none,
              .payload (some " more") none])
        (fun k => k != 0)
        [⟨.user, .str "earlier question", none⟩,
         ⟨.assistant, .str "earlier answer", none⟩]
        [.text "What is this?"] false none none none
      = ([.promptTokensUpdate 10,
          .chunk "Hello world, this is a chunk" 7,
          .info "LLM stream was cancelled by application.",
          .sentinel, .sentinel],
         [⟨.user, .str "earlier question", none⟩,
          ⟨.assistant, .str "earlier answer", none⟩]) := by
  rfl

end LMBuddy
